import Mathlib

/-!
Verification of the libpisoundmicro Element lifecycle, setup-descriptor codec,
wire-protocol serialization and retrying attribute I/O, as implemented in
`src/pisound-micro.c`.  The C code is shallowly embedded: the bit-packed
descriptor is a `Nat` (the C `uint32_t`), element names and payloads are byte
lists (`List Char`), the per-context element registry is a list of refcounted
nodes, and filesystem effects are recorded as an explicit write trace, with
open/write outcomes supplied by oracles.
-/

set_option autoImplicit false

namespace PisoundMicro

/-! ### errno codes and limits used by pisound-micro.c -/

def ENOENT : Nat := 2
def EACCES : Nat := 13
def EEXIST : Nat := 17
def EINVAL : Nat := 22
def ENAMETOOLONG : Nat := 36

def UPISND_MAX_ELEMENT_NAME_LENGTH : Nat := 64
def UPISND_MAX_BASE_PATH_LENGTH : Nat := 64
def UPISND_ELEMENT_MAX_PATH_LENGTH : Nat :=
  UPISND_MAX_ELEMENT_NAME_LENGTH + UPISND_MAX_BASE_PATH_LENGTH
def UPISND_MAX_REQUEST_LENGTH : Nat := UPISND_MAX_ELEMENT_NAME_LENGTH + 64
def UPISND_TIMEOUT_MS : Nat := 2000
-- usleep(1000) between retries, i.e. 1 ms.
def UPISND_RETRY_INTERVAL_MS : Nat := 1

/-! ### enumerations from include/pisound-micro/types.h (C enum values) -/

def UPISND_ELEMENT_TYPE_INVALID : Int := -1
def UPISND_ELEMENT_TYPE_NONE : Int := 0
def UPISND_ELEMENT_TYPE_ENCODER : Int := 1
def UPISND_ELEMENT_TYPE_ANALOG_INPUT : Int := 2
def UPISND_ELEMENT_TYPE_GPIO : Int := 3
def UPISND_ELEMENT_TYPE_ACTIVITY : Int := 4
def UPISND_ELEMENT_TYPE_COUNT : Int := 5

def UPISND_ACTIVITY_INVALID : Int := -1
def UPISND_ACTIVITY_MIDI_INPUT : Int := 0
def UPISND_ACTIVITY_MIDI_OUTPUT : Int := 1
def UPISND_ACTIVITY_COUNT : Int := 2

def UPISND_PIN_PULL_INVALID : Int := -1
def UPISND_PIN_PULL_NONE : Int := 0
def UPISND_PIN_PULL_UP : Int := 1
def UPISND_PIN_PULL_DOWN : Int := 2
def UPISND_PIN_PULL_COUNT : Int := 3

def UPISND_PIN_DIR_INVALID : Int := -1
def UPISND_PIN_DIR_INPUT : Int := 0
def UPISND_PIN_DIR_OUTPUT : Int := 1
def UPISND_PIN_DIR_COUNT : Int := 2

def UPISND_PIN_COUNT : Int := 37
def UPISND_PIN_INVALID : Int := 37

def UPISND_VALUE_MODE_INVALID : Int := -1
def UPISND_VALUE_MODE_CLAMP : Int := 0
def UPISND_VALUE_MODE_WRAP : Int := 1
def UPISND_VALUE_MODE_COUNT : Int := 2

/-- Conversion of an 8-bit field value to the C `int8_t` (`upisnd_pin_t`). -/
def int8_of_bits (n : Nat) : Int :=
  if n < 128 then (n : Int) else (n : Int) - 256

/-! ### Element name validation (upisnd_validate_element_name)

C strings are embedded as byte lists; the terminating NUL is not part of the
list.  `strchr(name, '/') != NULL` is `'/' ∈ name`. -/

def upisnd_validate_element_name (name : List Char) : Int :=
  if name.length = 0 then -1
  else if UPISND_MAX_ELEMENT_NAME_LENGTH ≤ name.length then -1
  else if '/' ∈ name then -1
  else (name.length : Int)

/-! ### Setup Descriptor codec (UPISND_DEFINE_INTERNAL_SETUP_FIELD)

The descriptor is the C `uint32_t upisnd_setup_t`.  The C field accessors are
  get: `(setup & (((1 << bits) - 1) << shift)) >> shift`
  set: `*setup = (*setup & ~(((1 << bits) - 1) << shift))
               | ((value & ((1 << bits) - 1)) << shift)`
The complement on a `uint32_t` is `(2^32 - 1) ^^^ mask`, and `value & ((1 <<
bits) - 1)` on the (possibly negative) C int is `(value % 2^bits).toNat`. -/

def upisnd_field_mask (shift bits : Nat) : Nat := ((1 <<< bits) - 1) <<< shift

def upisnd_internal_setup_get_field (shift bits setup : Nat) : Nat :=
  (setup &&& upisnd_field_mask shift bits) >>> shift

def upisnd_internal_setup_set_field (shift bits setup : Nat) (value : Int) : Nat :=
  (setup &&& ((2 ^ 32 - 1) ^^^ upisnd_field_mask shift bits)) |||
    ((value % ((2 ^ bits : Nat) : Int)).toNat <<< shift)

def upisnd_internal_setup_get_element_type (setup : Nat) : Int :=
  (upisnd_internal_setup_get_field 0 3 setup : Int)

def upisnd_internal_setup_get_pin_id (setup : Nat) : Int :=
  int8_of_bits (upisnd_internal_setup_get_field 3 8 setup)

def upisnd_internal_setup_get_gpio_pull (setup : Nat) : Int :=
  (upisnd_internal_setup_get_field 11 2 setup : Int)

def upisnd_internal_setup_get_gpio_dir (setup : Nat) : Int :=
  (upisnd_internal_setup_get_field 13 1 setup : Int)

def upisnd_internal_setup_get_gpio_output (setup : Nat) : Bool :=
  upisnd_internal_setup_get_field 12 1 setup = 1

def upisnd_internal_setup_get_encoder_pin_b_id (setup : Nat) : Int :=
  int8_of_bits (upisnd_internal_setup_get_field 13 8 setup)

def upisnd_internal_setup_get_encoder_pin_b_pull (setup : Nat) : Int :=
  (upisnd_internal_setup_get_field 21 2 setup : Int)

def upisnd_internal_setup_get_activity_type (setup : Nat) : Int :=
  (upisnd_internal_setup_get_field 11 2 setup : Int)

def upisnd_internal_setup_set_element_type (setup : Nat) (value : Int) : Nat :=
  upisnd_internal_setup_set_field 0 3 setup value

def upisnd_internal_setup_set_pin_id (setup : Nat) (value : Int) : Nat :=
  upisnd_internal_setup_set_field 3 8 setup value

def upisnd_internal_setup_set_gpio_pull (setup : Nat) (value : Int) : Nat :=
  upisnd_internal_setup_set_field 11 2 setup value

def upisnd_internal_setup_set_gpio_dir (setup : Nat) (value : Int) : Nat :=
  upisnd_internal_setup_set_field 13 1 setup value

def upisnd_internal_setup_set_gpio_output (setup : Nat) (value : Int) : Nat :=
  upisnd_internal_setup_set_field 12 1 setup value

def upisnd_internal_setup_set_encoder_pin_b_id (setup : Nat) (value : Int) : Nat :=
  upisnd_internal_setup_set_field 13 8 setup value

def upisnd_internal_setup_set_encoder_pin_b_pull (setup : Nat) (value : Int) : Nat :=
  upisnd_internal_setup_set_field 21 2 setup value

def upisnd_internal_setup_set_activity_type (setup : Nat) (value : Int) : Nat :=
  upisnd_internal_setup_set_field 11 2 setup value

/-! ### Public descriptor getters (upisnd_setup_get_*)

Each getter dispatches on the stored element-type tag; a field that does not
apply to the stored type yields the field's invalid sentinel. -/

def upisnd_setup_get_element_type (setup : Nat) : Int :=
  upisnd_internal_setup_get_element_type setup

def upisnd_setup_get_pin_id (setup : Nat) : Int :=
  if upisnd_internal_setup_get_element_type setup = UPISND_ELEMENT_TYPE_ENCODER ∨
     upisnd_internal_setup_get_element_type setup = UPISND_ELEMENT_TYPE_ANALOG_INPUT ∨
     upisnd_internal_setup_get_element_type setup = UPISND_ELEMENT_TYPE_GPIO ∨
     upisnd_internal_setup_get_element_type setup = UPISND_ELEMENT_TYPE_ACTIVITY then
    upisnd_internal_setup_get_pin_id setup
  else UPISND_PIN_INVALID

def upisnd_setup_get_gpio_pull (setup : Nat) : Int :=
  if upisnd_internal_setup_get_element_type setup = UPISND_ELEMENT_TYPE_ENCODER ∨
     (upisnd_internal_setup_get_element_type setup = UPISND_ELEMENT_TYPE_GPIO ∧
      upisnd_internal_setup_get_gpio_dir setup = UPISND_PIN_DIR_INPUT) then
    upisnd_internal_setup_get_gpio_pull setup
  else UPISND_PIN_PULL_INVALID

def upisnd_setup_get_gpio_dir (setup : Nat) : Int :=
  if upisnd_internal_setup_get_element_type setup = UPISND_ELEMENT_TYPE_GPIO then
    upisnd_internal_setup_get_gpio_dir setup
  else UPISND_PIN_DIR_INVALID

def upisnd_setup_get_gpio_output (setup : Nat) : Int :=
  if upisnd_internal_setup_get_element_type setup = UPISND_ELEMENT_TYPE_GPIO ∧
     upisnd_internal_setup_get_gpio_dir setup = UPISND_PIN_DIR_OUTPUT then
    (if upisnd_internal_setup_get_gpio_output setup then 1 else 0)
  else -(EINVAL : Int)

def upisnd_setup_get_encoder_pin_b_id (setup : Nat) : Int :=
  if upisnd_internal_setup_get_element_type setup = UPISND_ELEMENT_TYPE_ENCODER then
    upisnd_internal_setup_get_encoder_pin_b_id setup
  else UPISND_PIN_INVALID

def upisnd_setup_get_encoder_pin_b_pull (setup : Nat) : Int :=
  if upisnd_internal_setup_get_element_type setup = UPISND_ELEMENT_TYPE_ENCODER then
    upisnd_internal_setup_get_encoder_pin_b_pull setup
  else UPISND_PIN_PULL_INVALID

def upisnd_setup_get_activity_type (setup : Nat) : Int :=
  if upisnd_internal_setup_get_element_type setup = UPISND_ELEMENT_TYPE_ACTIVITY then
    upisnd_internal_setup_get_activity_type setup
  else UPISND_ACTIVITY_INVALID

/-! ### Public descriptor setters (upisnd_setup_set_*)

A C setter mutates `*setup` and returns 0, or returns `-EINVAL` leaving the
descriptor untouched; here each returns the pair (return code, new value). -/

def upisnd_setup_set_element_type (setup : Nat) (value : Int) : Int × Nat :=
  if value < 0 ∨ UPISND_ELEMENT_TYPE_COUNT ≤ value then (-(EINVAL : Int), setup)
  else
    -- memset(setup, 0, sizeof(*setup)) followed by the field store
    (0, upisnd_internal_setup_set_element_type 0 value)

def upisnd_setup_set_pin_id (setup : Nat) (value : Int) : Int × Nat :=
  if upisnd_internal_setup_get_element_type setup = UPISND_ELEMENT_TYPE_ENCODER ∨
     upisnd_internal_setup_get_element_type setup = UPISND_ELEMENT_TYPE_ANALOG_INPUT ∨
     upisnd_internal_setup_get_element_type setup = UPISND_ELEMENT_TYPE_GPIO ∨
     upisnd_internal_setup_get_element_type setup = UPISND_ELEMENT_TYPE_ACTIVITY then
    (0, upisnd_internal_setup_set_pin_id setup value)
  else (-(EINVAL : Int), setup)

def upisnd_setup_set_gpio_dir (setup : Nat) (value : Int) : Int × Nat :=
  if upisnd_internal_setup_get_element_type setup = UPISND_ELEMENT_TYPE_GPIO then
    (0, upisnd_internal_setup_set_gpio_dir setup value)
  else (-(EINVAL : Int), setup)

def upisnd_setup_set_gpio_pull (setup : Nat) (value : Int) : Int × Nat :=
  if upisnd_internal_setup_get_element_type setup = UPISND_ELEMENT_TYPE_ENCODER ∨
     (upisnd_internal_setup_get_element_type setup = UPISND_ELEMENT_TYPE_GPIO ∧
      upisnd_internal_setup_get_gpio_dir setup = UPISND_PIN_DIR_INPUT) then
    (0, upisnd_internal_setup_set_gpio_pull setup value)
  else (-(EINVAL : Int), setup)

def upisnd_setup_set_gpio_output (setup : Nat) (value : Bool) : Int × Nat :=
  if upisnd_internal_setup_get_element_type setup = UPISND_ELEMENT_TYPE_GPIO ∧
     upisnd_internal_setup_get_gpio_dir setup = UPISND_PIN_DIR_OUTPUT then
    (0, upisnd_internal_setup_set_gpio_output setup (if value then 1 else 0))
  else (-(EINVAL : Int), setup)

def upisnd_setup_set_encoder_pin_b_id (setup : Nat) (value : Int) : Int × Nat :=
  if upisnd_internal_setup_get_element_type setup = UPISND_ELEMENT_TYPE_ENCODER then
    (0, upisnd_internal_setup_set_encoder_pin_b_id setup value)
  else (-(EINVAL : Int), setup)

def upisnd_setup_set_encoder_pin_b_pull (setup : Nat) (value : Int) : Int × Nat :=
  if upisnd_internal_setup_get_element_type setup = UPISND_ELEMENT_TYPE_ENCODER then
    (0, upisnd_internal_setup_set_encoder_pin_b_pull setup value)
  else (-(EINVAL : Int), setup)

def upisnd_setup_set_activity_type (setup : Nat) (value : Int) : Int × Nat :=
  if upisnd_internal_setup_get_element_type setup = UPISND_ELEMENT_TYPE_ACTIVITY then
    (0, upisnd_internal_setup_set_activity_type setup value)
  else (-(EINVAL : Int), setup)

/-! ### Enum and pin serialization (upisnd_*_to_str) -/

def UPISND_PIN_NAMES : List (List Char) :=
  ["A27".toList, "A28".toList, "A29".toList, "A30".toList, "A31".toList,
   "A32".toList, "B03".toList, "B04".toList, "B05".toList, "B06".toList,
   "B07".toList, "B08".toList, "B09".toList, "B10".toList, "B11".toList,
   "B12".toList, "B13".toList, "B14".toList, "B15".toList, "B16".toList,
   "B17".toList, "B18".toList, "B23".toList, "B24".toList, "B25".toList,
   "B26".toList, "B27".toList, "B28".toList, "B29".toList, "B30".toList,
   "B31".toList, "B32".toList, "B33".toList, "B34".toList, "B37".toList,
   "B38".toList, "B39".toList]

-- C compares the `int8_t` pin against UPISND_PIN_COUNT; the array index is
-- only meaningful for 0 ≤ pin < 37 (a negative pin would be undefined
-- behavior in the C source).
def upisnd_is_pin_valid (pin : Int) : Bool := pin < UPISND_PIN_COUNT

def upisnd_pin_to_str (pin : Int) : List Char :=
  if upisnd_is_pin_valid pin then UPISND_PIN_NAMES.getD pin.toNat [] else []

def upisnd_pin_pull_to_str (pull : Int) : List Char :=
  if pull = UPISND_PIN_PULL_NONE then "pull_none".toList
  else if pull = UPISND_PIN_PULL_UP then "pull_up".toList
  else if pull = UPISND_PIN_PULL_DOWN then "pull_down".toList
  else []

def upisnd_activity_to_str (activity : Int) : List Char :=
  if activity = UPISND_ACTIVITY_MIDI_INPUT then "midi_in".toList
  else if activity = UPISND_ACTIVITY_MIDI_OUTPUT then "midi_out".toList
  else []

def upisnd_element_type_to_str (t : Int) : List Char :=
  if t = UPISND_ELEMENT_TYPE_NONE then "none".toList
  else if t = UPISND_ELEMENT_TYPE_ENCODER then "encoder".toList
  else if t = UPISND_ELEMENT_TYPE_ANALOG_INPUT then "analog_in".toList
  else if t = UPISND_ELEMENT_TYPE_GPIO then "gpio".toList
  else if t = UPISND_ELEMENT_TYPE_ACTIVITY then "activity".toList
  else []

/-! ### Element registry model

A `upisnd_elements_list_node_t` carries a refcount, the strdup'ed name, and
the owning context; node identity (the C pointer) is modelled by a unique
`id` drawn from an allocation counter.  One context is modelled (distinct
contexts are fully independent); its filesystem effects are a trace of writes
to the `setup` / `unsetup` nodes, and `sysfsDirs` models which
`elements/<name>` directories exist driver-side (`stat` in
`upisnd_element_exists_in_sysfs`). -/

structure ElemNode where
  id : Nat
  name : List Char
  refcount : Int
deriving DecidableEq, Repr

inductive WriteEvent where
  | setupWrite (payload : List Char)
  | unsetupWrite (payload : List Char)
deriving DecidableEq, Repr

structure Ctx where
  sysfs_base : List Char
  elements : List ElemNode
deriving DecidableEq, Repr

structure St where
  ctx : Ctx
  nextId : Nat
  sysfsDirs : List (List Char)
  trace : List WriteEvent
deriving DecidableEq, Repr

/-- The linear scan of `upisnd_element_get` (first match wins). -/
def findElement : List ElemNode → List Char → Option ElemNode
  | [], _ => none
  | e :: rest, name => if e.name = name then some e else findElement rest name

/-- In-place `__atomic_add_fetch(&el->refcount, 1, ...)` on the first node
matching `name`. -/
def bumpElement : List ElemNode → List Char → List ElemNode
  | [], _ => []
  | e :: rest, name =>
    if e.name = name then { e with refcount := e.refcount + 1 } :: rest
    else e :: bumpElement rest name

def findById : List ElemNode → Nat → Option ElemNode
  | [], _ => none
  | e :: rest, i => if e.id = i then some e else findById rest i

/-- `upisnd_elements_remove`: unlink the node from the context's list. -/
def removeById : List ElemNode → Nat → List ElemNode
  | [], _ => []
  | e :: rest, i => if e.id = i then rest else e :: removeById rest i

/-- The stored refcount after a non-final `__atomic_sub_fetch`. -/
def setRefcountById : List ElemNode → Nat → Int → List ElemNode
  | [], _, _ => []
  | e :: rest, i, r =>
    if e.id = i then { e with refcount := r } :: rest
    else e :: setRefcountById rest i r

/-- `upisnd_element_get`: validate the name, scan the registry under the
context lock; a hit increments the refcount and returns the existing node
(never a copy), a miss returns NULL. -/
def upisnd_element_get (st : St) (name : List Char) : Option Nat × St :=
  if upisnd_validate_element_name name < 0 then (none, st)
  else
    match findElement st.ctx.elements name with
    | some e =>
      (some e.id,
       { st with ctx := { st.ctx with elements := bumpElement st.ctx.elements name } })
    | none => (none, st)

/-- `upisnd_element_unref`: a NULL pointer (or pointer to NULL) is a no-op;
the decrement that reaches zero writes the element's name to the `unsetup`
node (`upisnd_unsetup_do`) and removes the node from the registry. -/
def upisnd_element_unref (st : St) (ref : Option Nat) : St :=
  match ref with
  | none => st
  | some i =>
    match findById st.ctx.elements i with
    | none => st
    | some e =>
      if e.refcount - 1 = 0 then
        { st with
          ctx := { st.ctx with elements := removeById st.ctx.elements i },
          trace := st.trace ++ [WriteEvent.unsetupWrite e.name] }
      else
        { st with
          ctx := { st.ctx with elements := setRefcountById st.ctx.elements i (e.refcount - 1) } }

structure SetupResult where
  handle : Option Nat
  errno : Nat
  st : St
deriving DecidableEq, Repr

/-- `upisnd_setup_do`: validate the name, build the `<base>/setup` path,
assemble the `"<name> <request>"` payload, look the name up in the registry
(an existing node is an attach), then perform the open/write/fdatasync/close
transaction on the `setup` node.  `fsErr` is the outcome of that filesystem
transaction (0 = success), supplied by the environment.  On success a fresh
node is prepended to the registry and `errno` distinguishes a brand-new
resource (0) from a pre-existing one (EEXIST); on failure a fresh node is
freed without any release request and an attach is unreferenced again. -/
def upisnd_setup_do (st : St) (name request : List Char) (fsErr : Nat) : SetupResult :=
  if upisnd_validate_element_name name < 0 then ⟨none, EINVAL, st⟩
  else if UPISND_MAX_BASE_PATH_LENGTH ≤ st.ctx.sysfs_base.length + 6 then
    -- snprintf("%s/setup") truncation check in upisnd_path
    ⟨none, ENAMETOOLONG, st⟩
  else if UPISND_MAX_REQUEST_LENGTH ≤ name.length + 1 + request.length then
    -- vsnprintf truncation check on the request buffer
    ⟨none, EINVAL, st⟩
  else
    match upisnd_element_get st name with
    | (some i, st1) =>
      -- existing = true
      if fsErr = 0 then
        ⟨some i, EEXIST,
         { st1 with trace := st1.trace ++ [WriteEvent.setupWrite (name ++ ' ' :: request)] }⟩
      else
        ⟨none, fsErr, upisnd_element_unref st1 (some i)⟩
    | (none, st1) =>
      -- existing = false: upisnd_element_alloc (refcount 1) + stat of the
      -- element's sysfs directory
      let el : ElemNode := ⟨st1.nextId, name, 1⟩
      let existedInSysfs := name ∈ st1.sysfsDirs
      if fsErr = 0 then
        ⟨some el.id, if existedInSysfs then EEXIST else 0,
         { st1 with
           ctx := { st1.ctx with elements := el :: st1.ctx.elements },
           nextId := st1.nextId + 1,
           trace := st1.trace ++ [WriteEvent.setupWrite (name ++ ' ' :: request)] }⟩
      else
        -- upisnd_elements_free(el): never inserted, no release request
        ⟨none, fsErr, st1⟩

/-! ### Per-type setup helpers and the upisnd_setup dispatcher

Each helper fills in `upisnd_setup_do`'s printf request format. -/

def upisnd_setup_encoder (st : St) (name : List Char)
    (pin_a pull_a pin_b pull_b : Int) (fsErr : Nat) : SetupResult :=
  upisnd_setup_do st name
    ("encoder ".toList ++ upisnd_pin_to_str pin_a ++ " ".toList ++
     upisnd_pin_pull_to_str pull_a ++ " ".toList ++ upisnd_pin_to_str pin_b ++
     " ".toList ++ upisnd_pin_pull_to_str pull_b) fsErr

def upisnd_setup_analog_input (st : St) (name : List Char)
    (pin : Int) (fsErr : Nat) : SetupResult :=
  upisnd_setup_do st name ("analog_in ".toList ++ upisnd_pin_to_str pin ++ " ".toList) fsErr

def upisnd_setup_gpio_input (st : St) (name : List Char)
    (pin pull : Int) (fsErr : Nat) : SetupResult :=
  upisnd_setup_do st name
    ("gpio ".toList ++ upisnd_pin_to_str pin ++ " input ".toList ++
     upisnd_pin_pull_to_str pull) fsErr

def upisnd_setup_gpio_output (st : St) (name : List Char)
    (pin : Int) (high : Bool) (fsErr : Nat) : SetupResult :=
  upisnd_setup_do st name
    ("gpio ".toList ++ upisnd_pin_to_str pin ++ " output ".toList ++
     [if high then '1' else '0']) fsErr

def upisnd_setup_activity (st : St) (name : List Char)
    (pin activity : Int) (fsErr : Nat) : SetupResult :=
  upisnd_setup_do st name
    ("activity_".toList ++ upisnd_activity_to_str activity ++ " ".toList ++
     upisnd_pin_to_str pin) fsErr

/-- `upisnd_setup`: dispatch on the descriptor's element type (the GPIO
direction field is one bit, so the C switch's default branch is unreachable
and the dir dispatch is input/output). -/
def upisnd_setup (st : St) (name : List Char) (setup : Nat) (fsErr : Nat) : SetupResult :=
  if upisnd_setup_get_element_type setup = UPISND_ELEMENT_TYPE_ENCODER then
    upisnd_setup_encoder st name
      (upisnd_internal_setup_get_pin_id setup)
      (upisnd_internal_setup_get_gpio_pull setup)
      (upisnd_internal_setup_get_encoder_pin_b_id setup)
      (upisnd_internal_setup_get_encoder_pin_b_pull setup) fsErr
  else if upisnd_setup_get_element_type setup = UPISND_ELEMENT_TYPE_ANALOG_INPUT then
    upisnd_setup_analog_input st name (upisnd_internal_setup_get_pin_id setup) fsErr
  else if upisnd_setup_get_element_type setup = UPISND_ELEMENT_TYPE_GPIO then
    (if upisnd_internal_setup_get_gpio_dir setup = UPISND_PIN_DIR_INPUT then
      upisnd_setup_gpio_input st name
        (upisnd_internal_setup_get_pin_id setup)
        (upisnd_internal_setup_get_gpio_pull setup) fsErr
    else
      upisnd_setup_gpio_output st name
        (upisnd_internal_setup_get_pin_id setup)
        (upisnd_internal_setup_get_gpio_output setup) fsErr)
  else if upisnd_setup_get_element_type setup = UPISND_ELEMENT_TYPE_ACTIVITY then
    upisnd_setup_activity st name
      (upisnd_internal_setup_get_pin_id setup)
      (upisnd_internal_setup_get_activity_type setup) fsErr
  else ⟨none, EINVAL, st⟩

/-! ### Element attribute paths and retrying attribute I/O

`upisnd_element_path` renders `"%s/elements/%s/%s"` into a 128-byte buffer
("/elements/" is 10 bytes, plus the separating '/').  Each `open(2)` attempt
is a step of an oracle `Nat → OpenOutcome`; `usleep(1000)` advances the
monotonic clock by `UPISND_RETRY_INTERVAL_MS` and the `do/while` re-checks
`upisnd_get_ms() - started_at < UPISND_TIMEOUT_MS`. -/

inductive ElementAttr where
  | root | typ | direction | pin | pin_name | pin_pull | pin_b | pin_b_name
  | pin_b_pull | gpio_export | gpio_unexport | input_min | input_max
  | value_low | value_high | value_mode | value | activity_type
deriving DecidableEq, Repr

def upisnd_element_attr_str : ElementAttr → List Char
  | ElementAttr.root => []
  | ElementAttr.typ => "type".toList
  | ElementAttr.direction => "direction".toList
  | ElementAttr.pin => "pin".toList
  | ElementAttr.pin_name => "pin_name".toList
  | ElementAttr.pin_pull => "pin_pull".toList
  | ElementAttr.pin_b => "pin_b".toList
  | ElementAttr.pin_b_name => "pin_b_name".toList
  | ElementAttr.pin_b_pull => "pin_b_pull".toList
  | ElementAttr.gpio_export => "gpio_export".toList
  | ElementAttr.gpio_unexport => "gpio_unexport".toList
  | ElementAttr.input_min => "input_min".toList
  | ElementAttr.input_max => "input_max".toList
  | ElementAttr.value_low => "value_low".toList
  | ElementAttr.value_high => "value_high".toList
  | ElementAttr.value_mode => "value_mode".toList
  | ElementAttr.value => "value".toList
  | ElementAttr.activity_type => "activity_type".toList

def upisnd_element_path_len (base name attr : List Char) : Nat :=
  base.length + 10 + name.length + 1 + attr.length

def upisnd_element_path (base name : List Char) (attr : ElementAttr) :
    Except Nat (List Char) :=
  let a := upisnd_element_attr_str attr
  if upisnd_element_path_len base name a < UPISND_ELEMENT_MAX_PATH_LENGTH then
    Except.ok (base ++ "/elements/".toList ++ name ++ ['/'] ++ a)
  else Except.error ENAMETOOLONG

/-- Outcome of one `open(2)` attempt. -/
inductive OpenOutcome where
  | ok (fd : Nat)
  | fail (e : Nat)
deriving DecidableEq, Repr

/-- The retry loop of `upisnd_element_attr_open`, returning
(fd or -1, errno, number of open attempts performed).  `attempt` indexes the
oracle; `elapsed` is `upisnd_get_ms() - started_at` in milliseconds. -/
def attrOpenGo (oracle : Nat → OpenOutcome) (attempt elapsed : Nat) : Int × Nat × Nat :=
  match oracle attempt with
  | OpenOutcome.ok fd => ((fd : Int), 0, 1)
  | OpenOutcome.fail e =>
    if e = ENOENT ∨ e = EACCES then
      if h : elapsed + UPISND_RETRY_INTERVAL_MS < UPISND_TIMEOUT_MS then
        let r := attrOpenGo oracle (attempt + 1) (elapsed + UPISND_RETRY_INTERVAL_MS)
        (r.1, r.2.1, r.2.2 + 1)
      else ((-1 : Int), e, 1)
    else ((-1 : Int), e, 1)
termination_by UPISND_TIMEOUT_MS - elapsed
decreasing_by simp only [UPISND_RETRY_INTERVAL_MS] at *; omega

/-- `upisnd_element_attr_open`: a NULL element fails with EINVAL before any
path building or filesystem access; otherwise the path is rendered and the
retry loop runs.  `base` stands for `el->ctx->sysfs_base`. -/
def upisnd_element_attr_open (el : Option ElemNode) (base : List Char)
    (attr : ElementAttr) (oracle : Nat → OpenOutcome) : Int × Nat × Nat :=
  match el with
  | none => (-1, EINVAL, 0)
  | some e =>
    match upisnd_element_path base e.name attr with
    | Except.error en => (-1, en, 0)
    | Except.ok _ => attrOpenGo oracle 0 0

/-- `upisnd_element_attr_read_int`: open, `upisnd_value_read`, close.  A
successful read parses to `content` and clears errno. -/
def upisnd_element_attr_read_int (el : Option ElemNode) (base : List Char)
    (attr : ElementAttr) (oracle : Nat → OpenOutcome) (content : Int) : Int × Nat :=
  let o := upisnd_element_attr_open el base attr oracle
  if o.1 < 0 then (-1, o.2.1)
  else (content, 0)

/-- `upisnd_element_attr_write_int`: open, `upisnd_value_write`, close; the
write itself is modelled as succeeding. -/
def upisnd_element_attr_write_int (el : Option ElemNode) (base : List Char)
    (attr : ElementAttr) (oracle : Nat → OpenOutcome) (_i : Int) : Int × Nat :=
  let o := upisnd_element_attr_open el base attr oracle
  if o.1 < 0 then (-1, o.2.1)
  else (1, 0)

def upisnd_element_open_value_fd (el : Option ElemNode) (base : List Char)
    (oracle : Nat → OpenOutcome) : Int × Nat × Nat :=
  upisnd_element_attr_open el base ElementAttr.value oracle

/-- `upisnd_element_get_name`: NULL in, NULL out. -/
def upisnd_element_get_name (el : Option ElemNode) : Option (List Char) :=
  match el with
  | none => none
  | some e => some e.name

/-- `upisnd_element_get_pin`: NULL fails with EINVAL and the invalid pin
sentinel; otherwise the `pin` attribute is read and checked through
`upisnd_is_pin_valid` (which receives the value truncated to `int8_t`). -/
def upisnd_element_get_pin (el : Option ElemNode) (base : List Char)
    (oracle : Nat → OpenOutcome) (content : Int) : Int × Nat :=
  match el with
  | none => (UPISND_PIN_INVALID, EINVAL)
  | some e =>
    let r := upisnd_element_attr_read_int (some e) base ElementAttr.pin oracle content
    let i := ((r.1 + 128) % 256) - 128
    (if upisnd_is_pin_valid i then i else UPISND_PIN_INVALID, r.2)

/-! ### Claim theorems -/

/-- Claim C9: element name validation accepts exactly the strings of length 1
through 63 bytes containing no '/' character, and rejects every other string
(the empty string, strings of 64 bytes or more, and strings containing a path
separator). -/
theorem c9_name_validation (name : List Char) :
    0 ≤ upisnd_validate_element_name name ↔
      (1 ≤ name.length ∧ name.length ≤ 63 ∧ '/' ∉ name) := by
  unfold upisnd_validate_element_name UPISND_MAX_ELEMENT_NAME_LENGTH
  by_cases h0 : name.length = 0
  · simp [h0]
  · by_cases h1 : 64 ≤ name.length
    · simp only [h0, if_false, h1, if_true]
      constructor
      · intro h; exact absurd h (by norm_num)
      · intro h; omega
    · by_cases h2 : '/' ∈ name
      · simp [h0, h1, h2]
      · simp [h0, h1, h2]
        omega

/-- Claim C3: setup of name "gpio1" with a GPIO-output descriptor
{pin B03, direction output, high level} performs exactly one write to the
context's `setup` node with payload "gpio1 gpio B03 output 1", and the
subsequent release performs one write to the `unsetup` node with payload
"gpio1"; an Encoder descriptor with pin_a=B03/pull_a=UP, pin_b=B04/pull_b=DOWN
serializes to the request "encoder B03 pull_up B04 pull_down". -/
theorem c3_wire_payloads :
    (let s0 := (upisnd_setup_set_element_type 0 UPISND_ELEMENT_TYPE_GPIO).2
     let s1 := (upisnd_setup_set_gpio_dir s0 UPISND_PIN_DIR_OUTPUT).2
     let s2 := (upisnd_setup_set_pin_id s1 6).2
     let s3 := (upisnd_setup_set_gpio_output s2 true).2
     let st0 : St := ⟨⟨"/sys/pisound-micro".toList, []⟩, 0, [], []⟩
     let r := upisnd_setup st0 "gpio1".toList s3 0
     let st2 := upisnd_element_unref r.st r.handle
     r.st.trace = [WriteEvent.setupWrite "gpio1 gpio B03 output 1".toList] ∧
     st2.trace = [WriteEvent.setupWrite "gpio1 gpio B03 output 1".toList,
                  WriteEvent.unsetupWrite "gpio1".toList] ∧
     st2.ctx.elements = []) ∧
    (let e0 := (upisnd_setup_set_element_type 0 UPISND_ELEMENT_TYPE_ENCODER).2
     let e1 := (upisnd_setup_set_pin_id e0 6).2
     let e2 := (upisnd_setup_set_gpio_pull e1 UPISND_PIN_PULL_UP).2
     let e3 := (upisnd_setup_set_encoder_pin_b_id e2 7).2
     let e4 := (upisnd_setup_set_encoder_pin_b_pull e3 UPISND_PIN_PULL_DOWN).2
     let st0 : St := ⟨⟨"/sys/pisound-micro".toList, []⟩, 0, [], []⟩
     (upisnd_setup st0 "enc1".toList e4 0).st.trace
       = [WriteEvent.setupWrite "enc1 encoder B03 pull_up B04 pull_down".toList]) := by
  decide

/-- Claim C4, counterexample: the round-trip as stated fails for the output
level field — immediately after storing the GPIO type tag the direction field
is INPUT (the scalar was reset), so `upisnd_setup_set_gpio_output` rejects the
value and the getter does not reproduce it. -/
theorem c4_counterexample :
    ¬ ((upisnd_setup_set_gpio_output
          (upisnd_setup_set_element_type 0 UPISND_ELEMENT_TYPE_GPIO).2 true).1 = 0 ∧
       upisnd_setup_get_gpio_output
         (upisnd_setup_set_gpio_output
           (upisnd_setup_set_element_type 0 UPISND_ELEMENT_TYPE_GPIO).2 true).2 = 1) := by
  decide

/-- `upisnd_setup_set_element_type` memsets the descriptor before storing the
tag, so its result does not depend on the prior descriptor value. -/
lemma set_type_snd_0 (s : Nat) : (upisnd_setup_set_element_type s 0).2 = 0 := rfl

lemma set_type_snd_1 (s : Nat) : (upisnd_setup_set_element_type s 1).2 = 1 := rfl

lemma set_type_snd_2 (s : Nat) : (upisnd_setup_set_element_type s 2).2 = 2 := rfl

lemma set_type_snd_3 (s : Nat) : (upisnd_setup_set_element_type s 3).2 = 3 := rfl

lemma set_type_snd_4 (s : Nat) : (upisnd_setup_set_element_type s 4).2 = 4 := rfl

/-- Claim C4, amended: for every element type and every field applicable to
it, setting the type tag and then the field to a valid value round-trips
through the public getter — with the proviso forced by the counterexample
that the output level applies only to a GPIO descriptor whose direction has
first been set to output (and pull only to a GPIO input, which is the state
directly after storing the GPIO tag). -/
theorem c4_roundtrip_amended (s : Nat) (t p pb pl d a : Nat) (o : Bool)
    (ht : t ≤ 4) (hp : p ≤ 36) (hpb : pb ≤ 36) (hpl : pl ≤ 2)
    (hd : d ≤ 1) (ha : a ≤ 1) :
    upisnd_setup_get_element_type (upisnd_setup_set_element_type s (t : Int)).2 = (t : Int) ∧
    ((upisnd_setup_set_pin_id
        (upisnd_setup_set_element_type s UPISND_ELEMENT_TYPE_ENCODER).2 (p : Int)).1 = 0 ∧
     upisnd_setup_get_pin_id
       (upisnd_setup_set_pin_id
         (upisnd_setup_set_element_type s UPISND_ELEMENT_TYPE_ENCODER).2 (p : Int)).2 = (p : Int)) ∧
    ((upisnd_setup_set_pin_id
        (upisnd_setup_set_element_type s UPISND_ELEMENT_TYPE_ANALOG_INPUT).2 (p : Int)).1 = 0 ∧
     upisnd_setup_get_pin_id
       (upisnd_setup_set_pin_id
         (upisnd_setup_set_element_type s UPISND_ELEMENT_TYPE_ANALOG_INPUT).2 (p : Int)).2 = (p : Int)) ∧
    ((upisnd_setup_set_pin_id
        (upisnd_setup_set_element_type s UPISND_ELEMENT_TYPE_GPIO).2 (p : Int)).1 = 0 ∧
     upisnd_setup_get_pin_id
       (upisnd_setup_set_pin_id
         (upisnd_setup_set_element_type s UPISND_ELEMENT_TYPE_GPIO).2 (p : Int)).2 = (p : Int)) ∧
    ((upisnd_setup_set_pin_id
        (upisnd_setup_set_element_type s UPISND_ELEMENT_TYPE_ACTIVITY).2 (p : Int)).1 = 0 ∧
     upisnd_setup_get_pin_id
       (upisnd_setup_set_pin_id
         (upisnd_setup_set_element_type s UPISND_ELEMENT_TYPE_ACTIVITY).2 (p : Int)).2 = (p : Int)) ∧
    ((upisnd_setup_set_gpio_pull
        (upisnd_setup_set_element_type s UPISND_ELEMENT_TYPE_ENCODER).2 (pl : Int)).1 = 0 ∧
     upisnd_setup_get_gpio_pull
       (upisnd_setup_set_gpio_pull
         (upisnd_setup_set_element_type s UPISND_ELEMENT_TYPE_ENCODER).2 (pl : Int)).2 = (pl : Int)) ∧
    ((upisnd_setup_set_gpio_pull
        (upisnd_setup_set_element_type s UPISND_ELEMENT_TYPE_GPIO).2 (pl : Int)).1 = 0 ∧
     upisnd_setup_get_gpio_pull
       (upisnd_setup_set_gpio_pull
         (upisnd_setup_set_element_type s UPISND_ELEMENT_TYPE_GPIO).2 (pl : Int)).2 = (pl : Int)) ∧
    ((upisnd_setup_set_gpio_dir
        (upisnd_setup_set_element_type s UPISND_ELEMENT_TYPE_GPIO).2 (d : Int)).1 = 0 ∧
     upisnd_setup_get_gpio_dir
       (upisnd_setup_set_gpio_dir
         (upisnd_setup_set_element_type s UPISND_ELEMENT_TYPE_GPIO).2 (d : Int)).2 = (d : Int)) ∧
    ((upisnd_setup_set_gpio_output
        (upisnd_setup_set_gpio_dir
          (upisnd_setup_set_element_type s UPISND_ELEMENT_TYPE_GPIO).2
          UPISND_PIN_DIR_OUTPUT).2 o).1 = 0 ∧
     upisnd_setup_get_gpio_output
       (upisnd_setup_set_gpio_output
         (upisnd_setup_set_gpio_dir
           (upisnd_setup_set_element_type s UPISND_ELEMENT_TYPE_GPIO).2
           UPISND_PIN_DIR_OUTPUT).2 o).2 = (if o then 1 else 0)) ∧
    ((upisnd_setup_set_encoder_pin_b_id
        (upisnd_setup_set_element_type s UPISND_ELEMENT_TYPE_ENCODER).2 (pb : Int)).1 = 0 ∧
     upisnd_setup_get_encoder_pin_b_id
       (upisnd_setup_set_encoder_pin_b_id
         (upisnd_setup_set_element_type s UPISND_ELEMENT_TYPE_ENCODER).2 (pb : Int)).2 = (pb : Int)) ∧
    ((upisnd_setup_set_encoder_pin_b_pull
        (upisnd_setup_set_element_type s UPISND_ELEMENT_TYPE_ENCODER).2 (pl : Int)).1 = 0 ∧
     upisnd_setup_get_encoder_pin_b_pull
       (upisnd_setup_set_encoder_pin_b_pull
         (upisnd_setup_set_element_type s UPISND_ELEMENT_TYPE_ENCODER).2 (pl : Int)).2 = (pl : Int)) ∧
    ((upisnd_setup_set_activity_type
        (upisnd_setup_set_element_type s UPISND_ELEMENT_TYPE_ACTIVITY).2 (a : Int)).1 = 0 ∧
     upisnd_setup_get_activity_type
       (upisnd_setup_set_activity_type
         (upisnd_setup_set_element_type s UPISND_ELEMENT_TYPE_ACTIVITY).2 (a : Int)).2 = (a : Int)) := by
  simp only [UPISND_ELEMENT_TYPE_ENCODER, UPISND_ELEMENT_TYPE_ANALOG_INPUT,
             UPISND_ELEMENT_TYPE_GPIO, UPISND_ELEMENT_TYPE_ACTIVITY,
             UPISND_PIN_DIR_OUTPUT, set_type_snd_1, set_type_snd_2,
             set_type_snd_3, set_type_snd_4]
  refine ⟨?_, ?_, ?_, ?_, ?_, ?_, ?_, ?_, ?_, ?_, ?_, ?_⟩
  · interval_cases t <;>
      simp only [Nat.cast_ofNat, Nat.cast_zero, Nat.cast_one, set_type_snd_0,
                 set_type_snd_1, set_type_snd_2, set_type_snd_3, set_type_snd_4] <;>
      decide
  · interval_cases p <;> decide
  · interval_cases p <;> decide
  · interval_cases p <;> decide
  · interval_cases p <;> decide
  · interval_cases pl <;> decide
  · interval_cases pl <;> decide
  · interval_cases d <;> decide
  · cases o <;> decide
  · interval_cases pb <;> decide
  · interval_cases pl <;> decide
  · interval_cases a <;> decide

/-- Witness for C4's amended round-trip at type GPIO, pin B03 (6), and a high
output level with the direction set first. -/
theorem c4_roundtrip_amended_witness :
    upisnd_setup_get_pin_id
      (upisnd_setup_set_pin_id
        (upisnd_setup_set_element_type 0 UPISND_ELEMENT_TYPE_GPIO).2 6).2 = 6 ∧
    upisnd_setup_get_gpio_output
      (upisnd_setup_set_gpio_output
        (upisnd_setup_set_gpio_dir
          (upisnd_setup_set_element_type 0 UPISND_ELEMENT_TYPE_GPIO).2
          UPISND_PIN_DIR_OUTPUT).2 true).2 = 1 := by
  have h := c4_roundtrip_amended 0 2 6 7 1 1 0 true (by decide) (by decide)
    (by decide) (by decide) (by decide) (by decide)
  exact ⟨h.2.2.2.1.2, h.2.2.2.2.2.2.2.2.1.2⟩

/-- Claim C5: accessing a field that does not apply to the descriptor's
currently stored type tag fails with an invalid-argument error and leaves the
descriptor scalar unchanged; the getters return their invalid sentinel (pull
applies to an encoder or a GPIO input, the output level only to a GPIO
output, the second pin only to an encoder, the activity kind only to an
activity element). -/
theorem c5_inapplicable_field_access (s : Nat) (v : Int) (b : Bool) :
    (¬ (upisnd_internal_setup_get_element_type s = UPISND_ELEMENT_TYPE_ENCODER ∨
        upisnd_internal_setup_get_element_type s = UPISND_ELEMENT_TYPE_ANALOG_INPUT ∨
        upisnd_internal_setup_get_element_type s = UPISND_ELEMENT_TYPE_GPIO ∨
        upisnd_internal_setup_get_element_type s = UPISND_ELEMENT_TYPE_ACTIVITY) →
      upisnd_setup_set_pin_id s v = (-(EINVAL : Int), s) ∧
      upisnd_setup_get_pin_id s = UPISND_PIN_INVALID) ∧
    (¬ (upisnd_internal_setup_get_element_type s = UPISND_ELEMENT_TYPE_ENCODER ∨
        (upisnd_internal_setup_get_element_type s = UPISND_ELEMENT_TYPE_GPIO ∧
         upisnd_internal_setup_get_gpio_dir s = UPISND_PIN_DIR_INPUT)) →
      upisnd_setup_set_gpio_pull s v = (-(EINVAL : Int), s) ∧
      upisnd_setup_get_gpio_pull s = UPISND_PIN_PULL_INVALID) ∧
    (¬ upisnd_internal_setup_get_element_type s = UPISND_ELEMENT_TYPE_GPIO →
      upisnd_setup_set_gpio_dir s v = (-(EINVAL : Int), s) ∧
      upisnd_setup_get_gpio_dir s = UPISND_PIN_DIR_INVALID) ∧
    (¬ (upisnd_internal_setup_get_element_type s = UPISND_ELEMENT_TYPE_GPIO ∧
        upisnd_internal_setup_get_gpio_dir s = UPISND_PIN_DIR_OUTPUT) →
      upisnd_setup_set_gpio_output s b = (-(EINVAL : Int), s) ∧
      upisnd_setup_get_gpio_output s = -(EINVAL : Int)) ∧
    (¬ upisnd_internal_setup_get_element_type s = UPISND_ELEMENT_TYPE_ENCODER →
      upisnd_setup_set_encoder_pin_b_id s v = (-(EINVAL : Int), s) ∧
      upisnd_setup_get_encoder_pin_b_id s = UPISND_PIN_INVALID) ∧
    (¬ upisnd_internal_setup_get_element_type s = UPISND_ELEMENT_TYPE_ENCODER →
      upisnd_setup_set_encoder_pin_b_pull s v = (-(EINVAL : Int), s) ∧
      upisnd_setup_get_encoder_pin_b_pull s = UPISND_PIN_PULL_INVALID) ∧
    (¬ upisnd_internal_setup_get_element_type s = UPISND_ELEMENT_TYPE_ACTIVITY →
      upisnd_setup_set_activity_type s v = (-(EINVAL : Int), s) ∧
      upisnd_setup_get_activity_type s = UPISND_ACTIVITY_INVALID) := by
  refine ⟨fun h => ⟨?_, ?_⟩, fun h => ⟨?_, ?_⟩, fun h => ⟨?_, ?_⟩, fun h => ⟨?_, ?_⟩,
          fun h => ⟨?_, ?_⟩, fun h => ⟨?_, ?_⟩, fun h => ⟨?_, ?_⟩⟩
  · unfold upisnd_setup_set_pin_id; rw [if_neg h]
  · unfold upisnd_setup_get_pin_id; rw [if_neg h]
  · unfold upisnd_setup_set_gpio_pull; rw [if_neg h]
  · unfold upisnd_setup_get_gpio_pull; rw [if_neg h]
  · unfold upisnd_setup_set_gpio_dir; rw [if_neg h]
  · unfold upisnd_setup_get_gpio_dir; rw [if_neg h]
  · unfold upisnd_setup_set_gpio_output; rw [if_neg h]
  · unfold upisnd_setup_get_gpio_output; rw [if_neg h]
  · unfold upisnd_setup_set_encoder_pin_b_id; rw [if_neg h]
  · unfold upisnd_setup_get_encoder_pin_b_id; rw [if_neg h]
  · unfold upisnd_setup_set_encoder_pin_b_pull; rw [if_neg h]
  · unfold upisnd_setup_get_encoder_pin_b_pull; rw [if_neg h]
  · unfold upisnd_setup_set_activity_type; rw [if_neg h]
  · unfold upisnd_setup_get_activity_type; rw [if_neg h]

/-- Witness for C5 on the all-zero descriptor (type tag NONE), where none of
the fields apply. -/
theorem c5_inapplicable_field_access_witness :
    upisnd_setup_set_pin_id 0 5 = (-(EINVAL : Int), 0) ∧
    upisnd_setup_get_pin_id 0 = UPISND_PIN_INVALID ∧
    upisnd_setup_set_gpio_pull 0 5 = (-(EINVAL : Int), 0) ∧
    upisnd_setup_get_gpio_pull 0 = UPISND_PIN_PULL_INVALID ∧
    upisnd_setup_set_gpio_output 0 true = (-(EINVAL : Int), 0) ∧
    upisnd_setup_get_gpio_output 0 = -(EINVAL : Int) := by
  have h := c5_inapplicable_field_access 0 5 true
  exact ⟨(h.1 (by decide)).1, (h.1 (by decide)).2, (h.2.1 (by decide)).1,
         (h.2.1 (by decide)).2, (h.2.2.2.1 (by decide)).1, (h.2.2.2.1 (by decide)).2⟩

/-- Storing a field and reading the same field back yields the value reduced
modulo the field width: the C setter masks `value & ((1 << bits) - 1)`. -/
lemma upisnd_get_set_same_field (shift bits s : Nat) (v : Int)
    (h : shift + bits ≤ 32) :
    upisnd_internal_setup_get_field shift bits
        (upisnd_internal_setup_set_field shift bits s v)
      = (v % ((2 ^ bits : Nat) : Int)).toNat := by
  have h2 : (0 : Int) < ((2 ^ bits : Nat) : Int) := by positivity
  have hmodlt := Int.emod_lt_of_pos v h2
  have hmodnn := Int.emod_nonneg v (ne_of_gt h2)
  have hvlt : (v % ((2 ^ bits : Nat) : Int)).toNat < 2 ^ bits := by omega
  have hsl : ∀ n : Nat, (1 <<< n) = 2 ^ n := fun n => by simp [Nat.shiftLeft_eq]
  apply Nat.eq_of_testBit_eq
  intro i
  unfold upisnd_internal_setup_get_field upisnd_internal_setup_set_field upisnd_field_mask
  simp only [hsl, Nat.testBit_shiftRight, Nat.testBit_land, Nat.testBit_lor, Nat.testBit_xor,
             Nat.testBit_shiftLeft,
             Nat.testBit_two_pow_sub_one, Nat.add_sub_cancel_left, ge_iff_le,
             Nat.le_add_right, decide_True, Bool.true_and]
  by_cases hib : i < bits
  · have h32 : shift + i < 32 := by omega
    simp [hib, h32]
  · have hz : ((v % ((2 ^ bits : Nat) : Int)).toNat).testBit i = false :=
      Nat.testBit_lt_two_pow
        (lt_of_lt_of_le hvlt (Nat.pow_le_pow_right (by norm_num) (le_of_not_lt hib)))
    push_cast at hz
    simp [hib, hz]

/-- Storing one field leaves every disjoint field unchanged. -/
lemma upisnd_get_set_other_field (gs gb fs fb x : Nat) (v : Int)
    (hg : gs + gb ≤ 32) (hd : fs + fb ≤ gs ∨ gs + gb ≤ fs) :
    upisnd_internal_setup_get_field gs gb (upisnd_internal_setup_set_field fs fb x v)
      = upisnd_internal_setup_get_field gs gb x := by
  have h2 : (0 : Int) < ((2 ^ fb : Nat) : Int) := by positivity
  have hmodlt := Int.emod_lt_of_pos v h2
  have hmodnn := Int.emod_nonneg v (ne_of_gt h2)
  have hvlt : (v % ((2 ^ fb : Nat) : Int)).toNat < 2 ^ fb := by omega
  have hsl : ∀ n : Nat, (1 <<< n) = 2 ^ n := fun n => by simp [Nat.shiftLeft_eq]
  apply Nat.eq_of_testBit_eq
  intro i
  unfold upisnd_internal_setup_get_field upisnd_internal_setup_set_field upisnd_field_mask
  simp only [hsl, Nat.testBit_shiftRight, Nat.testBit_land, Nat.testBit_lor, Nat.testBit_xor,
             Nat.testBit_shiftLeft,
             Nat.testBit_two_pow_sub_one, Nat.add_sub_cancel_left, ge_iff_le,
             Nat.le_add_right, decide_True, Bool.true_and]
  by_cases hib : i < gb
  · have h32 : gs + i < 32 := by omega
    rcases hd with hd | hd
    · have hfb : ¬ (gs + i - fs < fb) := by omega
      have hfs : fs ≤ gs + i := by omega
      have hzv : ((v % ((2 ^ fb : Nat) : Int)).toNat).testBit (gs + i - fs) = false :=
        Nat.testBit_lt_two_pow
          (lt_of_lt_of_le hvlt (Nat.pow_le_pow_right (by norm_num) (by omega)))
      push_cast at hzv
      simp [hib, h32, hfb, hfs, hzv]
    · have hfs : ¬ (fs ≤ gs + i) := by omega
      simp [hib, h32, hfs]
  · simp [hib]

/-- Claim C6, counterexample: on a GPIO-typed descriptor the pin-id setter
accepts the out-of-range pin 37 (`UPISND_PIN_INVALID`, outside 0–36): it
returns success and mutates the descriptor instead of rejecting the value. -/
theorem c6_counterexample :
    (upisnd_setup_set_pin_id 3 UPISND_PIN_INVALID).1 = 0 ∧
    (upisnd_setup_set_pin_id 3 UPISND_PIN_INVALID).2 ≠ 3 := by
  decide

/-- Claim C6, amended: only `upisnd_setup_set_element_type` range-checks its
value (rejecting negatives and values ≥ COUNT while leaving the descriptor
unchanged); every other setter checks only the stored type tag, accepts any
value, and silently masks it into the stored bitfield (`value & ((1 << bits)
- 1)`, i.e. the value modulo the field width). -/
theorem c6_amended_setter_range_checks (s : Nat) (v : Int) :
    ((v < 0 ∨ UPISND_ELEMENT_TYPE_COUNT ≤ v) →
      upisnd_setup_set_element_type s v = (-(EINVAL : Int), s)) ∧
    ((upisnd_internal_setup_get_element_type s = UPISND_ELEMENT_TYPE_ENCODER ∨
      upisnd_internal_setup_get_element_type s = UPISND_ELEMENT_TYPE_ANALOG_INPUT ∨
      upisnd_internal_setup_get_element_type s = UPISND_ELEMENT_TYPE_GPIO ∨
      upisnd_internal_setup_get_element_type s = UPISND_ELEMENT_TYPE_ACTIVITY) →
      (upisnd_setup_set_pin_id s v).1 = 0 ∧
      upisnd_internal_setup_get_field 3 8 (upisnd_setup_set_pin_id s v).2
        = (v % ((2 ^ 8 : Nat) : Int)).toNat) ∧
    (upisnd_internal_setup_get_element_type s = UPISND_ELEMENT_TYPE_GPIO →
      (upisnd_setup_set_gpio_dir s v).1 = 0 ∧
      upisnd_internal_setup_get_field 13 1 (upisnd_setup_set_gpio_dir s v).2
        = (v % ((2 ^ 1 : Nat) : Int)).toNat) ∧
    ((upisnd_internal_setup_get_element_type s = UPISND_ELEMENT_TYPE_ENCODER ∨
      (upisnd_internal_setup_get_element_type s = UPISND_ELEMENT_TYPE_GPIO ∧
       upisnd_internal_setup_get_gpio_dir s = UPISND_PIN_DIR_INPUT)) →
      (upisnd_setup_set_gpio_pull s v).1 = 0 ∧
      upisnd_internal_setup_get_field 11 2 (upisnd_setup_set_gpio_pull s v).2
        = (v % ((2 ^ 2 : Nat) : Int)).toNat) ∧
    (upisnd_internal_setup_get_element_type s = UPISND_ELEMENT_TYPE_ENCODER →
      (upisnd_setup_set_encoder_pin_b_id s v).1 = 0 ∧
      upisnd_internal_setup_get_field 13 8 (upisnd_setup_set_encoder_pin_b_id s v).2
        = (v % ((2 ^ 8 : Nat) : Int)).toNat) ∧
    (upisnd_internal_setup_get_element_type s = UPISND_ELEMENT_TYPE_ENCODER →
      (upisnd_setup_set_encoder_pin_b_pull s v).1 = 0 ∧
      upisnd_internal_setup_get_field 21 2 (upisnd_setup_set_encoder_pin_b_pull s v).2
        = (v % ((2 ^ 2 : Nat) : Int)).toNat) ∧
    (upisnd_internal_setup_get_element_type s = UPISND_ELEMENT_TYPE_ACTIVITY →
      (upisnd_setup_set_activity_type s v).1 = 0 ∧
      upisnd_internal_setup_get_field 11 2 (upisnd_setup_set_activity_type s v).2
        = (v % ((2 ^ 2 : Nat) : Int)).toNat) := by
  refine ⟨fun h => ?_, fun h => ⟨?_, ?_⟩, fun h => ⟨?_, ?_⟩, fun h => ⟨?_, ?_⟩,
          fun h => ⟨?_, ?_⟩, fun h => ⟨?_, ?_⟩, fun h => ⟨?_, ?_⟩⟩
  · unfold upisnd_setup_set_element_type; rw [if_pos h]
  · unfold upisnd_setup_set_pin_id; rw [if_pos h]
  · unfold upisnd_setup_set_pin_id upisnd_internal_setup_set_pin_id; rw [if_pos h]
    exact upisnd_get_set_same_field 3 8 s v (by norm_num)
  · unfold upisnd_setup_set_gpio_dir; rw [if_pos h]
  · unfold upisnd_setup_set_gpio_dir upisnd_internal_setup_set_gpio_dir; rw [if_pos h]
    exact upisnd_get_set_same_field 13 1 s v (by norm_num)
  · unfold upisnd_setup_set_gpio_pull; rw [if_pos h]
  · unfold upisnd_setup_set_gpio_pull upisnd_internal_setup_set_gpio_pull; rw [if_pos h]
    exact upisnd_get_set_same_field 11 2 s v (by norm_num)
  · unfold upisnd_setup_set_encoder_pin_b_id; rw [if_pos h]
  · unfold upisnd_setup_set_encoder_pin_b_id upisnd_internal_setup_set_encoder_pin_b_id
    rw [if_pos h]
    exact upisnd_get_set_same_field 13 8 s v (by norm_num)
  · unfold upisnd_setup_set_encoder_pin_b_pull; rw [if_pos h]
  · unfold upisnd_setup_set_encoder_pin_b_pull upisnd_internal_setup_set_encoder_pin_b_pull
    rw [if_pos h]
    exact upisnd_get_set_same_field 21 2 s v (by norm_num)
  · unfold upisnd_setup_set_activity_type; rw [if_pos h]
  · unfold upisnd_setup_set_activity_type upisnd_internal_setup_set_activity_type
    rw [if_pos h]
    exact upisnd_get_set_same_field 11 2 s v (by norm_num)

/-- Witness for C6's amended claim: on a GPIO-typed descriptor the value 255
(an out-of-range pin id) is accepted and stored as 255 & 0xFF; the
element-type setter rejects 255. -/
theorem c6_amended_setter_range_checks_witness :
    upisnd_setup_set_element_type 3 255 = (-(EINVAL : Int), 3) ∧
    (upisnd_setup_set_pin_id 3 255).1 = 0 ∧
    upisnd_internal_setup_get_field 3 8 (upisnd_setup_set_pin_id 3 255).2 = 255 := by
  have h := c6_amended_setter_range_checks 3 255
  refine ⟨h.1 (by decide), (h.2.1 (by decide)).1, ?_⟩
  exact ((h.2.1 (by decide)).2).trans (by decide)

lemma findElement_mem {els : List ElemNode} {name : List Char} {e : ElemNode}
    (h : findElement els name = some e) : e ∈ els := by
  induction els with
  | nil => simp [findElement] at h
  | cons a rest ih =>
    unfold findElement at h
    by_cases ha : a.name = name
    · rw [if_pos ha] at h
      cases h
      exact List.mem_cons_self _ _
    · rw [if_neg ha] at h
      exact List.mem_cons_of_mem _ (ih h)

lemma findElement_bumpElement (els : List ElemNode) (name : List Char) :
    findElement (bumpElement els name) name
      = (findElement els name).map (fun e => { e with refcount := e.refcount + 1 }) := by
  induction els with
  | nil => rfl
  | cons a rest ih =>
    by_cases ha : a.name = name
    · simp [bumpElement, findElement, ha]
    · simp [bumpElement, findElement, ha, ih]

/-- Undoing the refcount bump of a failed attach restores the registry: the
node found by name is the unique node with its id, its refcount is the bumped
one, and writing back the decremented count gives back the original list. -/
lemma unref_restore (els : List ElemNode) (name : List Char) (e : ElemNode)
    (h : findElement els name = some e)
    (hids : (els.map ElemNode.id).Nodup) :
    findById (bumpElement els name) e.id = some ⟨e.id, e.name, e.refcount + 1⟩ ∧
    setRefcountById (bumpElement els name) e.id (e.refcount + 1 - 1) = els := by
  induction els with
  | nil => simp [findElement] at h
  | cons a rest ih =>
    simp only [List.map_cons, List.nodup_cons] at hids
    obtain ⟨hna, hnr⟩ := hids
    unfold findElement at h
    by_cases ha : a.name = name
    · rw [if_pos ha] at h
      obtain rfl : a = e := by cases h; rfl
      constructor
      · simp [bumpElement, findById, ha]
      · simp [bumpElement, setRefcountById, ha, Int.add_sub_cancel]
        rw [← ha]
    · rw [if_neg ha] at h
      have hane : a.id ≠ e.id := by
        intro hcontra
        exact hna (hcontra ▸ List.mem_map_of_mem ElemNode.id (findElement_mem h))
      obtain ⟨ih1, ih2⟩ := ih h hnr
      have ih2a : setRefcountById (bumpElement rest name) e.id e.refcount = rest := by
        simpa using ih2
      constructor
      · simp [bumpElement, findById, ha, hane, ih1]
      · simp [bumpElement, setRefcountById, ha, hane, ih2a]

/-- Claim C2: the unref whose decrement drives the refcount to zero issues
exactly one driver-side release request (a single write of the element's name
to the `unsetup` node) and removes the handle from the registry; an unref
that leaves the count positive issues no release and only stores the
decremented count. -/
theorem c2_zero_crossing_release (st : St) (e : ElemNode)
    (h : findById st.ctx.elements e.id = some e) :
    (e.refcount = 1 →
      upisnd_element_unref st (some e.id)
        = { st with
            ctx := { st.ctx with elements := removeById st.ctx.elements e.id },
            trace := st.trace ++ [WriteEvent.unsetupWrite e.name] }) ∧
    (e.refcount ≠ 1 →
      upisnd_element_unref st (some e.id)
        = { st with
            ctx := { st.ctx with
                     elements := setRefcountById st.ctx.elements e.id (e.refcount - 1) } }) := by
  constructor
  · intro h1
    simp only [upisnd_element_unref, h]
    rw [if_pos (by omega : e.refcount - 1 = 0)]
  · intro h1
    simp only [upisnd_element_unref, h]
    rw [if_neg (by omega : ¬ e.refcount - 1 = 0)]

/-- Witness for C2: a one-element registry at refcount 1; the unref removes
the element and issues the single release write. -/
theorem c2_zero_crossing_release_witness :
    upisnd_element_unref ⟨⟨"/s".toList, [⟨0, "x".toList, 1⟩]⟩, 1, [], []⟩ (some 0)
      = ⟨⟨"/s".toList, []⟩, 1, [], [WriteEvent.unsetupWrite "x".toList]⟩ := by
  have h := c2_zero_crossing_release ⟨⟨"/s".toList, [⟨0, "x".toList, 1⟩]⟩, 1, [], []⟩
    ⟨0, "x".toList, 1⟩ (by decide)
  exact (h.1 rfl).trans (by decide)

/-- A successful setup of a name already in the registry is an attach: the
refcount of the existing node is bumped, one request is written to the
`setup` node, and errno reports EEXIST. -/
lemma setup_do_attach (st : St) (name request : List Char) (e : ElemNode)
    (hv : 0 ≤ upisnd_validate_element_name name)
    (hbase : st.ctx.sysfs_base.length + 6 < UPISND_MAX_BASE_PATH_LENGTH)
    (hreq : name.length + 1 + request.length < UPISND_MAX_REQUEST_LENGTH)
    (h : findElement st.ctx.elements name = some e) :
    upisnd_setup_do st name request 0
      = ⟨some e.id, EEXIST,
         { st with
           ctx := { st.ctx with elements := bumpElement st.ctx.elements name },
           trace := st.trace ++ [WriteEvent.setupWrite (name ++ ' ' :: request)] }⟩ := by
  have hget : upisnd_element_get st name
      = (some e.id,
         { st with ctx := { st.ctx with elements := bumpElement st.ctx.elements name } }) := by
    unfold upisnd_element_get
    rw [if_neg (by omega), h]
  unfold upisnd_setup_do
  rw [if_neg (by omega), if_neg (by omega), if_neg (by omega), hget]
  rfl

/-- A successful setup of a name absent from the registry allocates a fresh
node at refcount 1, writes one request to the `setup` node, and prepends the
node to the registry. -/
lemma setup_do_fresh (st : St) (name request : List Char)
    (hv : 0 ≤ upisnd_validate_element_name name)
    (hbase : st.ctx.sysfs_base.length + 6 < UPISND_MAX_BASE_PATH_LENGTH)
    (hreq : name.length + 1 + request.length < UPISND_MAX_REQUEST_LENGTH)
    (h : findElement st.ctx.elements name = none) :
    upisnd_setup_do st name request 0
      = ⟨some st.nextId, if name ∈ st.sysfsDirs then EEXIST else 0,
         { st with
           ctx := { st.ctx with elements := ⟨st.nextId, name, 1⟩ :: st.ctx.elements },
           nextId := st.nextId + 1,
           trace := st.trace ++ [WriteEvent.setupWrite (name ++ ' ' :: request)] }⟩ := by
  have hget : upisnd_element_get st name = (none, st) := by
    unfold upisnd_element_get
    rw [if_neg (by omega), h]
  unfold upisnd_setup_do
  rw [if_neg (by omega), if_neg (by omega), if_neg (by omega), hget]
  rfl

/-- Claim C1: for a valid name already held in the registry, every further
acquisition — `upisnd_element_get` or a repeated setup of the same name —
returns the very same underlying node (same identity, never a copy) and
increments its refcount by exactly one; two sequential setups of the same
name from the same context yield identical handle identity and refcount 2. -/
theorem c1_repeated_acquire (st : St) (name request : List Char) (e : ElemNode)
    (hv : 0 ≤ upisnd_validate_element_name name)
    (hbase : st.ctx.sysfs_base.length + 6 < UPISND_MAX_BASE_PATH_LENGTH)
    (hreq : name.length + 1 + request.length < UPISND_MAX_REQUEST_LENGTH) :
    (findElement st.ctx.elements name = some e →
      (upisnd_element_get st name).1 = some e.id ∧
      findElement (upisnd_element_get st name).2.ctx.elements name
        = some ⟨e.id, e.name, e.refcount + 1⟩ ∧
      (upisnd_setup_do st name request 0).handle = some e.id ∧
      findElement (upisnd_setup_do st name request 0).st.ctx.elements name
        = some ⟨e.id, e.name, e.refcount + 1⟩) ∧
    (findElement st.ctx.elements name = none →
      (upisnd_setup_do st name request 0).handle = some st.nextId ∧
      (upisnd_setup_do (upisnd_setup_do st name request 0).st name request 0).handle
        = some st.nextId ∧
      findElement
        (upisnd_setup_do (upisnd_setup_do st name request 0).st name request 0).st.ctx.elements
        name = some ⟨st.nextId, name, 2⟩) := by
  constructor
  · intro h
    have hget : upisnd_element_get st name
        = (some e.id,
           { st with ctx := { st.ctx with elements := bumpElement st.ctx.elements name } }) := by
      unfold upisnd_element_get
      rw [if_neg (by omega), h]
    have hfb : findElement (bumpElement st.ctx.elements name) name
        = some ⟨e.id, e.name, e.refcount + 1⟩ := by
      rw [findElement_bumpElement, h]
      rfl
    have hsd := setup_do_attach st name request e hv hbase hreq h
    exact ⟨by rw [hget], by rw [hget]; exact hfb, by rw [hsd], by rw [hsd]; exact hfb⟩
  · intro h
    have hsd1 := setup_do_fresh st name request hv hbase hreq h
    have hfind2 : findElement
        ((⟨st.nextId, name, 1⟩ : ElemNode) :: st.ctx.elements) name
        = some ⟨st.nextId, name, 1⟩ := by
      simp [findElement]
    have hsd2 := setup_do_attach
      { st with
        ctx := { st.ctx with elements := ⟨st.nextId, name, 1⟩ :: st.ctx.elements },
        nextId := st.nextId + 1,
        trace := st.trace ++ [WriteEvent.setupWrite (name ++ ' ' :: request)] }
      name request ⟨st.nextId, name, 1⟩ hv hbase hreq hfind2
    refine ⟨by rw [hsd1], by rw [hsd1]; rw [hsd2], ?_⟩
    rw [hsd1]
    rw [hsd2]
    simp [bumpElement, findElement]

/-- Witness for C1: a singleton registry {x ↦ refcount 3}; get returns the
node's id 5 with refcount bumped to 4, and on an empty registry two setups of
"x" both return id 0 with final refcount 2. -/
theorem c1_repeated_acquire_witness :
    (upisnd_element_get ⟨⟨"/s".toList, [⟨5, "x".toList, 3⟩]⟩, 9, [], []⟩ "x".toList).1
      = some 5 ∧
    findElement
      (upisnd_element_get ⟨⟨"/s".toList, [⟨5, "x".toList, 3⟩]⟩, 9, [], []⟩ "x".toList).2.ctx.elements
      "x".toList = some ⟨5, "x".toList, 4⟩ ∧
    (upisnd_setup_do
      (upisnd_setup_do ⟨⟨"/s".toList, []⟩, 0, [], []⟩ "x".toList "gpio A27 input pull_none".toList 0).st
      "x".toList "gpio A27 input pull_none".toList 0).handle = some 0 ∧
    findElement
      (upisnd_setup_do
        (upisnd_setup_do ⟨⟨"/s".toList, []⟩, 0, [], []⟩ "x".toList "gpio A27 input pull_none".toList 0).st
        "x".toList "gpio A27 input pull_none".toList 0).st.ctx.elements
      "x".toList = some ⟨0, "x".toList, 2⟩ := by
  have h1 := c1_repeated_acquire ⟨⟨"/s".toList, [⟨5, "x".toList, 3⟩]⟩, 9, [], []⟩
    "x".toList "gpio A27 input pull_none".toList ⟨5, "x".toList, 3⟩
    (by decide) (by decide) (by decide)
  have h2 := c1_repeated_acquire ⟨⟨"/s".toList, []⟩, 0, [], []⟩
    "x".toList "gpio A27 input pull_none".toList ⟨5, "x".toList, 3⟩
    (by decide) (by decide) (by decide)
  obtain ⟨g1, g2, _, _⟩ := h1.1 (by decide)
  obtain ⟨_, s2, s3⟩ := h2.2 (by decide)
  exact ⟨g1, g2, s2, s3⟩

/-- Claim C8: when the setup filesystem transaction fails, the underlying
error is propagated and the registry is exactly as before the call: a fresh
allocation is freed without being inserted and without any release request
(the state, including the write trace, is unchanged), and a pre-existing
node keeps its registration and refcount. -/
theorem c8_failure_rollback (st : St) (name request : List Char) (err : Nat)
    (herr : err ≠ 0)
    (hv : 0 ≤ upisnd_validate_element_name name)
    (hbase : st.ctx.sysfs_base.length + 6 < UPISND_MAX_BASE_PATH_LENGTH)
    (hreq : name.length + 1 + request.length < UPISND_MAX_REQUEST_LENGTH)
    (hids : (st.ctx.elements.map ElemNode.id).Nodup) :
    (findElement st.ctx.elements name = none →
      upisnd_setup_do st name request err = ⟨none, err, st⟩) ∧
    (∀ e, findElement st.ctx.elements name = some e → 1 ≤ e.refcount →
      upisnd_setup_do st name request err = ⟨none, err, st⟩) := by
  constructor
  · intro h
    have hget : upisnd_element_get st name = (none, st) := by
      unfold upisnd_element_get
      rw [if_neg (by omega), h]
    unfold upisnd_setup_do
    rw [if_neg (by omega), if_neg (by omega), if_neg (by omega), hget]
    dsimp only
    rw [if_neg herr]
  · intro e h hrc
    have hget : upisnd_element_get st name
        = (some e.id,
           { st with ctx := { st.ctx with elements := bumpElement st.ctx.elements name } }) := by
      unfold upisnd_element_get
      rw [if_neg (by omega), h]
    obtain ⟨hf, hs⟩ := unref_restore st.ctx.elements name e h hids
    have hne : ¬ ((⟨e.id, e.name, e.refcount + 1⟩ : ElemNode).refcount - 1 = 0) := by
      simp only []
      omega
    unfold upisnd_setup_do
    rw [if_neg (by omega), if_neg (by omega), if_neg (by omega), hget]
    dsimp only
    rw [if_neg herr]
    unfold upisnd_element_unref
    dsimp only
    rw [hf]
    dsimp only
    rw [if_neg hne, hs]

/-- Witness for C8: a failing transaction (err 5) on an empty registry and on
a singleton registry leaves each state exactly unchanged and propagates 5. -/
theorem c8_failure_rollback_witness :
    upisnd_setup_do ⟨⟨"/s".toList, []⟩, 0, [], []⟩ "x".toList "r".toList 5
      = ⟨none, 5, ⟨⟨"/s".toList, []⟩, 0, [], []⟩⟩ ∧
    upisnd_setup_do ⟨⟨"/s".toList, [⟨0, "x".toList, 1⟩]⟩, 1, [], []⟩ "x".toList "r".toList 5
      = ⟨none, 5, ⟨⟨"/s".toList, [⟨0, "x".toList, 1⟩]⟩, 1, [], []⟩⟩ := by
  have h1 := c8_failure_rollback ⟨⟨"/s".toList, []⟩, 0, [], []⟩ "x".toList "r".toList 5
    (by decide) (by decide) (by decide) (by decide) (by decide)
  have h2 := c8_failure_rollback ⟨⟨"/s".toList, [⟨0, "x".toList, 1⟩]⟩, 1, [], []⟩
    "x".toList "r".toList 5
    (by decide) (by decide) (by decide) (by decide) (by decide)
  exact ⟨h1.1 (by decide), h2.2 ⟨0, "x".toList, 1⟩ (by decide) (by decide)⟩

/-- The retry loop on an oracle that fails with ENOENT for the first K
attempts and succeeds at attempt K: starting "n attempts before K" with the
clock at `a` milliseconds, the loop returns the successful fd after n + 1
further attempts if K is below the timeout, and otherwise runs the clock out
returning -1 with the last ENOENT. -/
lemma attrOpenGo_enoent_spec (oracle : Nat → OpenOutcome) (K fd : Nat)
    (hK : ∀ i, i < K → oracle i = OpenOutcome.fail ENOENT)
    (hok : oracle K = OpenOutcome.ok fd) :
    ∀ n a, a + n = K →
      ((K < UPISND_TIMEOUT_MS → attrOpenGo oracle a a = ((fd : Int), 0, n + 1)) ∧
       (UPISND_TIMEOUT_MS ≤ K → a < UPISND_TIMEOUT_MS →
         attrOpenGo oracle a a = (-1, ENOENT, UPISND_TIMEOUT_MS - a))) := by
  have hint : UPISND_RETRY_INTERVAL_MS = 1 := rfl
  have htout : UPISND_TIMEOUT_MS = 2000 := rfl
  intro n
  induction n with
  | zero =>
    intro a ha
    obtain rfl : a = K := by omega
    constructor
    · intro _
      rw [attrOpenGo, hok]
    · intro h1 h2
      exact absurd h1 (by omega)
  | succ m ih =>
    intro a ha
    have hor : oracle a = OpenOutcome.fail ENOENT := hK a (by omega)
    constructor
    · intro hKlt
      rw [attrOpenGo, hor]
      dsimp only
      rw [if_pos (Or.inl rfl),
          dif_pos (by omega : a + UPISND_RETRY_INTERVAL_MS < UPISND_TIMEOUT_MS)]
      simp only [hint]
      rw [(ih (a + 1) (by omega)).1 hKlt]
    · intro hge hlt
      rw [attrOpenGo, hor]
      dsimp only
      rw [if_pos (Or.inl rfl)]
      by_cases hcond : a + UPISND_RETRY_INTERVAL_MS < UPISND_TIMEOUT_MS
      · rw [dif_pos hcond]
        simp only [hint]
        rw [(ih (a + 1) (by omega)).2 hge (by omega)]
        simp only [Prod.mk.injEq, true_and]
        omega
      · rw [dif_neg hcond]
        simp only [Prod.mk.injEq, true_and]
        omega

/-- Claim C7: opening an element attribute retries only on ENOENT/EACCES with
a fixed 1 ms sleep between attempts, bounded by the 2000 ms total timeout;
any other open failure aborts after exactly one attempt with no retry; with
the first K attempts failing not-found and attempt K succeeding, the open
succeeds (returning the fd after K+1 attempts) iff K times the backoff
interval is below the total timeout, and otherwise fails once the timeout is
exhausted. -/
theorem c7_retry_bounded_timeout (el : ElemNode) (base : List Char)
    (attr : ElementAttr) (oracle : Nat → OpenOutcome) (K fd err : Nat)
    (hpath : upisnd_element_path_len base el.name (upisnd_element_attr_str attr)
      < UPISND_ELEMENT_MAX_PATH_LENGTH) :
    ((∀ i, i < K → oracle i = OpenOutcome.fail ENOENT) →
      oracle K = OpenOutcome.ok fd →
      ((K * UPISND_RETRY_INTERVAL_MS < UPISND_TIMEOUT_MS →
        upisnd_element_attr_open (some el) base attr oracle = ((fd : Int), 0, K + 1)) ∧
       (UPISND_TIMEOUT_MS ≤ K * UPISND_RETRY_INTERVAL_MS →
        upisnd_element_attr_open (some el) base attr oracle
          = (-1, ENOENT, UPISND_TIMEOUT_MS)))) ∧
    (oracle 0 = OpenOutcome.fail err → err ≠ ENOENT → err ≠ EACCES →
      upisnd_element_attr_open (some el) base attr oracle = (-1, err, 1)) := by
  have hint : UPISND_RETRY_INTERVAL_MS = 1 := rfl
  have hK1 : K * UPISND_RETRY_INTERVAL_MS = K := by rw [hint, Nat.mul_one]
  have hopen : upisnd_element_attr_open (some el) base attr oracle
      = attrOpenGo oracle 0 0 := by
    unfold upisnd_element_attr_open upisnd_element_path
    dsimp only
    rw [if_pos hpath]
  constructor
  · intro hK hok
    have hspec := attrOpenGo_enoent_spec oracle K fd hK hok K 0 (by omega)
    constructor
    · intro hlt
      rw [hopen]
      exact hspec.1 (by omega)
    · intro hge
      rw [hopen]
      have h2 := hspec.2 (by omega) (by
        have htout : UPISND_TIMEOUT_MS = 2000 := rfl
        omega)
      simpa using h2
  · intro h0 hne1 hne2
    rw [hopen, attrOpenGo, h0]
    dsimp only
    rw [if_neg (by simp [hne1, hne2] : ¬ (err = ENOENT ∨ err = EACCES))]

/-- Witness for C7: an oracle failing not-found on attempts 0–2 and opening
fd 5 at attempt 3 succeeds after 4 attempts (3 ms < 2000 ms), and an oracle
failing with EIO (5) aborts after a single attempt. -/
theorem c7_retry_bounded_timeout_witness :
    upisnd_element_attr_open (some ⟨0, "x".toList, 1⟩) "/s".toList ElementAttr.pin
      (fun i => if i < 3 then OpenOutcome.fail ENOENT else OpenOutcome.ok 5)
      = (5, 0, 4) ∧
    upisnd_element_attr_open (some ⟨0, "x".toList, 1⟩) "/s".toList ElementAttr.pin
      (fun _ => OpenOutcome.fail 5)
      = (-1, 5, 1) := by
  have h1 := c7_retry_bounded_timeout ⟨0, "x".toList, 1⟩ "/s".toList ElementAttr.pin
    (fun i => if i < 3 then OpenOutcome.fail ENOENT else OpenOutcome.ok 5) 3 5 0
    (by decide)
  have h2 := c7_retry_bounded_timeout ⟨0, "x".toList, 1⟩ "/s".toList ElementAttr.pin
    (fun _ => OpenOutcome.fail 5) 0 0 5 (by decide)
  exact ⟨(h1.1 (by decide) (by decide)).1 (by decide),
         h2.2 rfl (by decide) (by decide)⟩

/-- Claim C10: every public element operation invoked with a NULL handle
fails immediately with no filesystem I/O (zero open attempts): attribute
opens (hence attribute reads/writes and `open_value_fd`) set errno to EINVAL
and return the failure sentinel, `upisnd_element_get_name` returns NULL,
`upisnd_element_get_pin` returns the invalid pin sentinel with errno EINVAL,
and unref of a NULL reference is a no-op that changes no state. -/
theorem c10_null_handle (st : St) (base : List Char) (attr : ElementAttr)
    (oracle : Nat → OpenOutcome) (content i : Int) :
    upisnd_element_attr_open none base attr oracle = (-1, EINVAL, 0) ∧
    upisnd_element_attr_read_int none base attr oracle content = (-1, EINVAL) ∧
    upisnd_element_attr_write_int none base attr oracle i = (-1, EINVAL) ∧
    upisnd_element_open_value_fd none base oracle = (-1, EINVAL, 0) ∧
    upisnd_element_get_name none = none ∧
    upisnd_element_get_pin none base oracle content = (UPISND_PIN_INVALID, EINVAL) ∧
    upisnd_element_unref st none = st :=
  ⟨rfl, rfl, rfl, rfl, rfl, rfl, rfl⟩

end PisoundMicro
